import Mathlib

/-!
Verification development for the `svcerr` Go package (err/err.go): a small
library that builds gRPC status errors, attaches structured detail records,
and translates any error into an HTTP-oriented structure.

The embedding below translates the package's functions into Lean, together
with the fragment of its external collaborators that the package exercises:

* `google.golang.org/grpc/codes` : codes are `uint32` values, modelled as
  `Nat` (0 = OK .. 16 = Unauthenticated, other values legal but unnamed).
* `google.golang.org/grpc/status` : a status is {code, message, details};
  the repository's era of grpc-go resolves `status.FromError` by a direct
  type assertion (no unwrapping of wrapped errors), `nil` errors are
  reported as OK statuses, and `(*Status).Err()` is `nil` for code OK.
* `fmt` : `status.Errorf` formats its message argument with zero operands,
  and `%s` of a detail slice prints the bracketed, space-separated element
  renderings.

Go `error` values are modelled by `GoError`: `nil`, a status-carrying error
(one implementing `GRPCStatus()`), or a plain textual error.
-/

namespace Svcerr

/-- Modelled from the Go standard library: the characters `fmt` consumes as
flag, width or precision characters between a `%` and its verb. -/
def isFmtMod (c : Char) : Bool :=
  c == '+' || c == '-' || c == '#' || c == ' ' || c == '0' || c == '.' || c.isDigit

/-- Modelled from the Go standard library: `fmt.Sprintf(format)` applied to
zero operands, which is how `status.Errorf(c, message)` treats `message` in
`newErr`. Literal characters copy through; `%%` prints `%`; a verb with no
remaining operand prints `%!<verb>(MISSING)`; a `%` not followed by a verb
before the end of the string prints `%!(NOVERB)`. The `Bool` state is `true`
while scanning flag/width/precision characters after a `%`. -/
def spfAux : Bool → List Char → List Char
  | false, [] => []
  | false, c :: rest => if c == '%' then spfAux true rest else c :: spfAux false rest
  | true, [] => '%' :: '!' :: '(' :: 'N' :: 'O' :: 'V' :: 'E' :: 'R' :: 'B' :: ')' :: []
  | true, v :: rest =>
    if isFmtMod v then spfAux true rest
    else if v == '%' then '%' :: spfAux false rest
    else '%' :: '!' :: v :: '(' :: 'M' :: 'I' :: 'S' :: 'S' :: 'I' :: 'N' :: 'G' :: ')'
           :: spfAux false rest

/-- The result of formatting a message string through `fmt.Sprintf` with no
operands (the `status.Errorf(c, message)` call in `newErr`). -/
def sprintfNoArgs (s : String) : String :=
  String.mk (spfAux false s.toList)

/-- The gRPC code numbering of `google.golang.org/grpc/codes`. -/
def codeOK : Nat := 0

def codeCanceled : Nat := 1

def codeUnknown : Nat := 2

def codeInvalidArgument : Nat := 3

def codeDeadlineExceeded : Nat := 4

def codeNotFound : Nat := 5

def codeAlreadyExists : Nat := 6

def codePermissionDenied : Nat := 7

def codeResourceExhausted : Nat := 8

def codeFailedPrecondition : Nat := 9

def codeAborted : Nat := 10

def codeOutOfRange : Nat := 11

def codeUnimplemented : Nat := 12

def codeInternal : Nat := 13

def codeUnavailable : Nat := 14

def codeDataLoss : Nat := 15

def codeUnauthenticated : Nat := 16

/-- Modelled from `google.golang.org/grpc/codes`: the `String` method of
`codes.Code`; an unlisted code prints as `Code(<decimal>)`. -/
def codeName : Nat → String
  | 0 => "OK"
  | 1 => "Canceled"
  | 2 => "Unknown"
  | 3 => "InvalidArgument"
  | 4 => "DeadlineExceeded"
  | 5 => "NotFound"
  | 6 => "AlreadyExists"
  | 7 => "PermissionDenied"
  | 8 => "ResourceExhausted"
  | 9 => "FailedPrecondition"
  | 10 => "Aborted"
  | 11 => "OutOfRange"
  | 12 => "Unimplemented"
  | 13 => "Internal"
  | 14 => "Unavailable"
  | 15 => "DataLoss"
  | 16 => "Unauthenticated"
  | n => "Code(" ++ toString n ++ ")"

/-- The `httpMap` table of err.go, grpc code → HTTP status code. A Go map is
a partial function; `ConvHTTP` reads it with Go map-index semantics (a
missing key yields the zero value `0`). The numeric literals inline the
`net/http` constants the source names (`http.StatusOK` = 200, ...). -/
def httpMap : Nat → Option Nat
  | 0 => some 200
  | 1 => some 499
  | 2 => some 500
  | 3 => some 400
  | 4 => some 504
  | 5 => some 404
  | 6 => some 409
  | 7 => some 403
  | 8 => some 429
  | 9 => some 400
  | 10 => some 409
  | 11 => some 400
  | 12 => some 501
  | 13 => some 500
  | 14 => some 503
  | 15 => some 500
  | 16 => some 401
  | _ => Option.none

/-- Modelled from the external protobuf detail vocabulary
(`google.golang.org/genproto/.../errdetails` and `proto.Message`): a detail
record is abstracted to its textual rendering (its proto `String()` output,
as printed by `%s`) and whether marshalling it into an `Any` succeeds
(`WithDetails` fails on a record that cannot be marshalled). -/
structure Detail where
  render : String
  serializable : Bool
deriving DecidableEq

/-- Modelled from `google.golang.org/grpc/status`: the data a `*Status`
carries that this package reads — code, message and attached details. -/
structure Status where
  code : Nat
  message : String
  details : List Detail
deriving DecidableEq

/-- A Go `error` value as this package can observe it: the `nil` error, an
error carrying a gRPC status (implementing `GRPCStatus()`), or any other
(plain textual) error, abstracted to its `Error()` string. -/
inductive GoError where
  | nil : GoError
  | statusErr : Status → GoError
  | plain : String → GoError
deriving DecidableEq

/-- Modelled from `google.golang.org/grpc/status`: `FromError`. A `nil`
error yields a `nil` status and `ok = true`; a status-carrying error yields
its status and `ok = true`; any other error yields
`New(codes.Unknown, err.Error())` and `ok = false`. The grpc-go of this
repository's era does not unwrap wrapped errors here. -/
def FromError : GoError → Option Status × Bool
  | GoError.nil => (Option.none, true)
  | GoError.statusErr s => (some s, true)
  | GoError.plain m => (some ⟨codeUnknown, m, []⟩, false)

/-- Modelled from `google.golang.org/grpc/status`: `(*Status).Code()`; a
`nil` receiver reports `codes.OK`. -/
def stCode : Option Status → Nat
  | Option.none => codeOK
  | some s => s.code

/-- Modelled from `google.golang.org/grpc/status`: `(*Status).Message()`; a
`nil` receiver reports the empty string. -/
def stMessage : Option Status → String
  | Option.none => ""
  | some s => s.message

/-- Modelled from `google.golang.org/grpc/status`: `(*Status).Details()`; a
`nil` receiver reports no details. -/
def stDetails : Option Status → List Detail
  | Option.none => []
  | some s => s.details

/-- Modelled from `google.golang.org/grpc/status`: `(*Status).Err()`, which
is the `nil` error for `codes.OK` and otherwise an error whose
`GRPCStatus()` is the status itself. -/
def Status.err (s : Status) : GoError :=
  if s.code = codeOK then GoError.nil else GoError.statusErr s

/-- Modelled from `google.golang.org/grpc/status`: `New(c, msg)`. -/
def statusNew (c : Nat) (msg : String) : Status :=
  ⟨c, msg, []⟩

/-- Modelled from `google.golang.org/grpc/status`: `Error(c, msg)` is
`New(c, msg).Err()`. -/
def statusError (c : Nat) (msg : String) : GoError :=
  (statusNew c msg).err

/-- Modelled from `google.golang.org/grpc/status`: `Errorf(c, format)` with
no operands is `Error(c, fmt.Sprintf(format))`. -/
def statusErrorf (c : Nat) (format : String) : GoError :=
  statusError c (sprintfNoArgs format)

/-- Modelled from `google.golang.org/grpc/status`: `Convert(err)` is the
status of `FromError(err)` with the `ok` flag dropped. -/
def statusConvert (err : GoError) : Option Status :=
  (FromError err).1

/-- Modelled from `google.golang.org/grpc/status`: `(*Status).WithDetails`.
It fails (`none`, standing for a non-nil attachment error) on a receiver
with code OK or when marshalling any record fails; otherwise it returns a
status with the records appended in order. -/
def withDetails (s : Option Status) (ds : List Detail) : Option Status :=
  if stCode s = codeOK then Option.none
  else if ds.all (·.serializable) then some ⟨stCode s, stMessage s, stDetails s ++ ds⟩
  else Option.none

/-- The `Error()` string of a Go error. A grpc status error renders as
`rpc error: code = <name> desc = <message>`. Calling `Error()` on the `nil`
error would panic in Go; `nil` is mapped to `""` here and no modelled
source path reaches it (`FromError` reports `ok = true` for `nil`). -/
def errText : GoError → String
  | GoError.nil => ""
  | GoError.statusErr s => "rpc error: code = " ++ codeName s.code ++ " desc = " ++ s.message
  | GoError.plain m => m

/-- Modelled from the Go standard library: `fmt.Sprintf("%s", s.Details())`
prints the detail slice as the space-separated element renderings inside
brackets (an empty or nil slice prints as `[]`). -/
def detailsString (ds : List Detail) : String :=
  "[" ++ String.intercalate " " (ds.map (·.render)) ++ "]"

/-- `Wrap` of err.go: `fmt.Errorf("%s:(%w)", text, err)`. The `fmt` wrapper
does not implement `GRPCStatus()`, so the result is a plain textual error.
The `%w` verb prints `%!w(<nil>)` when handed a `nil` error. -/
def Wrap (text : String) (err : GoError) : GoError :=
  GoError.plain (text ++ ":(" ++
    (match err with
     | GoError.nil => "%!w(<nil>)"
     | e => errText e) ++ ")")

/-- `newErr` of err.go: build the status error, and when details were
passed, try to attach them, silently falling back to the undecorated error
when attachment fails. The attachment error `lerr` has no other use. -/
def newErr (c : Nat) (message : String) (details : List Detail) : GoError :=
  let err := statusErrorf c message
  if details.length ≠ 0 then
    let s := statusConvert err
    match withDetails s details with
    | Option.none => err
    | some errDetail => errDetail.err
  else err

/-- `InvalidArgs` of err.go. -/
def InvalidArgs (msg : String) (details : List Detail) : GoError :=
  newErr codeInvalidArgument msg details

/-- `InternalErr` of err.go. -/
def InternalErr (msg : String) (details : List Detail) : GoError :=
  newErr codeInternal msg details

/-- `Unknown` of err.go. -/
def Unknown (msg : String) (details : List Detail) : GoError :=
  newErr codeUnknown msg details

/-- `NotFound` of err.go. -/
def NotFound (msg : String) (details : List Detail) : GoError :=
  newErr codeNotFound msg details

/-- `PermDenied` of err.go. -/
def PermDenied (msg : String) (details : List Detail) : GoError :=
  newErr codePermissionDenied msg details

/-- `Canceled` of err.go. -/
def Canceled (msg : String) (details : List Detail) : GoError :=
  newErr codeCanceled msg details

/-- `DeadlineExceeded` of err.go. -/
def DeadlineExceeded (msg : String) (details : List Detail) : GoError :=
  newErr codeDeadlineExceeded msg details

/-- `AlreadyExists` of err.go. -/
def AlreadyExists (msg : String) (details : List Detail) : GoError :=
  newErr codeAlreadyExists msg details

/-- `ResourceExhausted` of err.go. -/
def ResourceExhausted (msg : String) (details : List Detail) : GoError :=
  newErr codeResourceExhausted msg details

/-- `FailedPreCondition` of err.go. -/
def FailedPreCondition (msg : String) (details : List Detail) : GoError :=
  newErr codeFailedPrecondition msg details

/-- `Aborted` of err.go. -/
def Aborted (msg : String) (details : List Detail) : GoError :=
  newErr codeAborted msg details

/-- `OutOfRange` of err.go. -/
def OutOfRange (msg : String) (details : List Detail) : GoError :=
  newErr codeOutOfRange msg details

/-- `Unimplemented` of err.go. -/
def Unimplemented (msg : String) (details : List Detail) : GoError :=
  newErr codeUnimplemented msg details

/-- `DataLoss` of err.go. -/
def DataLoss (msg : String) (details : List Detail) : GoError :=
  newErr codeDataLoss msg details

/-- `Unavailable` of err.go. -/
def Unavailable (msg : String) (details : List Detail) : GoError :=
  newErr codeUnavailable msg details

/-- `Unauthenticated` of err.go. -/
def Unauthenticated (msg : String) (details : List Detail) : GoError :=
  newErr codeUnauthenticated msg details

/-- `RestErr` of err.go. -/
structure RestErr where
  Code : Nat
  Desc : String
  Message : String
  Details : String
deriving DecidableEq

/-- `ConvHTTP` of err.go. The source wraps the `RestErr` in a `SvcErr`
together with `LocalTime = time.Now()`; the real-time field is outside the
embedding and only the `Rest` component is modelled. The map read
`httpMap[st.Code()]` follows Go semantics: a missing key yields `0`. -/
def ConvHTTP (err : GoError) : RestErr :=
  match FromError err with
  | (st, ok) =>
    if ok then
      { Code := (httpMap (stCode st)).getD 0
        Desc := codeName (stCode st)
        Message := stMessage st
        Details := detailsString (stDetails st) }
    else
      { Code := 500
        Desc := errText err
        Message := ""
        Details := "" }

/-- `IsValid` of err.go. -/
def IsValid (err : GoError) : Bool :=
  (FromError err).2

/-- The `String` function of err.go (named `StringErr` here because `String`
is the Lean string type). When `ok` is false the source still returns
`s.Message()` of the status `FromError` built, i.e. the error's own text. -/
def StringErr (err : GoError) : String :=
  match FromError err with
  | (s, ok) =>
    if ok then
      "Code = " ++ codeName (stCode s) ++ ", Message = " ++ stMessage s ++
        ", Details = " ++ detailsString (stDetails s)
    else stMessage s

/-- `Code` of err.go. -/
def Code (err : GoError) : Nat :=
  match FromError err with
  | (s, ok) => if ok then stCode s else codeUnknown

/-- Normal form of `newErr` for a non-OK code: the status error carrying the
formatted message and, when every record attaches, the details in order;
otherwise (the fail-soft path) no details. -/
theorem newErr_eq (c : Nat) (msg : String) (ds : List Detail) (hc : c ≠ 0) :
    newErr c msg ds =
      GoError.statusErr ⟨c, sprintfNoArgs msg,
        if ds.all (·.serializable) then ds else []⟩ := by
  cases ds with
  | nil =>
    simp [newErr, statusErrorf, statusError, statusNew, Status.err, codeOK, hc]
  | cons d tl =>
    cases hd : (d :: tl).all (·.serializable) with
    | true =>
      simp [newErr, statusErrorf, statusError, statusNew, Status.err, statusConvert,
            FromError, withDetails, stCode, stMessage, stDetails, codeOK, hc, hd]
    | false =>
      simp [newErr, statusErrorf, statusError, statusNew, Status.err, statusConvert,
            FromError, withDetails, stCode, stMessage, stDetails, codeOK, hc, hd]

-- Sanity checks against the repository's own tests and example output.

example : sprintfNoArgs "Invalid msg" = "Invalid msg" := by decide

example : sprintfNoArgs "%d" = "%!d(MISSING)" := by decide

example :
    errText (NotFound "Not Found" []) = "rpc error: code = NotFound desc = Not Found" := by
  decide

example :
    errText (Wrap "Outer Text" (NotFound "Not Found" [])) =
      "Outer Text:(rpc error: code = NotFound desc = Not Found)" := by
  decide

example :
    ConvHTTP (InvalidArgs "Invalid Args" []) =
      ⟨400, "InvalidArgument", "Invalid Args", "[]"⟩ := by
  decide

example : ConvHTTP (GoError.plain "Generic") = ⟨500, "Generic", "", ""⟩ := by decide

example : StringErr (InvalidArgs "test" []) = "Code = InvalidArgument, Message = test, Details = []" := by
  decide

example : StringErr (GoError.plain "test") = "test" := by decide

example : IsValid (ResourceExhausted "Resource Exhausted" []) = true := by decide

example : IsValid (GoError.plain "Test Error") = false := by decide

example :
    StringErr (InvalidArgs "Additional Message" [⟨"d1", true⟩]) =
      "Code = InvalidArgument, Message = Additional Message, Details = [d1]" := by
  decide

/-- A factory-produced error (any non-OK code, any details outcome) carries
a gRPC status, so `IsValid` holds of it. -/
theorem newErr_isValid (c : Nat) (msg : String) (ds : List Detail) (hc : c ≠ 0) :
    IsValid (newErr c msg ds) = true := by
  rw [newErr_eq c msg ds hc]; rfl

/-- `Code` of a factory-produced error is the code it was built with. -/
theorem newErr_code (c : Nat) (msg : String) (ds : List Detail) (hc : c ≠ 0) :
    Code (newErr c msg ds) = c := by
  rw [newErr_eq c msg ds hc]; rfl

/-- `newErr` at a non-OK code: on attachment failure it returns the
undecorated status error, and in every case it returns a non-nil error. -/
theorem newErr_attach (c : Nat) (msg : String) (ds : List Detail) (hc : c ≠ 0) :
    (ds.all (·.serializable) = false →
      newErr c msg ds = GoError.statusErr ⟨c, sprintfNoArgs msg, []⟩) ∧
    newErr c msg ds ≠ GoError.nil := by
  rw [newErr_eq c msg ds hc]
  refine ⟨fun hd => by simp [hd], by simp⟩

/-- Wrapping a factory-produced error gives a plain textual error whose text
composes the outer text with the inner error's own rendering. -/
theorem wrap_newErr (text : String) (c : Nat) (msg : String) (ds : List Detail)
    (hc : c ≠ 0) :
    errText (Wrap text (newErr c msg ds)) =
      text ++ ":(" ++ errText (newErr c msg ds) ++ ")" ∧
    IsValid (Wrap text (newErr c msg ds)) = false := by
  rw [newErr_eq c msg ds hc]
  exact ⟨rfl, rfl⟩

/-- Translating a factory-produced error whose records all attach yields the
records' renderings in order as the serialized details. -/
theorem newErr_details (c : Nat) (msg : String) (ds : List Detail) (hc : c ≠ 0)
    (hd : ds.all (·.serializable) = true) :
    (ConvHTTP (newErr c msg ds)).Details = detailsString ds := by
  rw [newErr_eq c msg ds hc]
  simp [ConvHTTP, FromError, stCode, stMessage, stDetails, hd]

/-- C1: for every message, translating an error produced by each kind's
constructor yields exactly the tabulated transport code: OK→200 (OK has no
public constructor; its `newErr` instance, the nil error, still translates
to 200), CANCELED→499, UNKNOWN→500, INVALID_ARGUMENT→400,
DEADLINE_EXCEEDED→504, NOT_FOUND→404, ALREADY_EXISTS→409,
PERMISSION_DENIED→403, RESOURCE_EXHAUSTED→429, FAILED_PRECONDITION→400,
ABORTED→409, OUT_OF_RANGE→400, UNIMPLEMENTED→501, INTERNAL→500,
UNAVAILABLE→503, DATA_LOSS→500, UNAUTHENTICATED→401. -/
theorem C1_translate_table (msg : String) :
    (ConvHTTP (newErr codeOK msg [])).Code = 200 ∧
    (ConvHTTP (Canceled msg [])).Code = 499 ∧
    (ConvHTTP (Unknown msg [])).Code = 500 ∧
    (ConvHTTP (InvalidArgs msg [])).Code = 400 ∧
    (ConvHTTP (DeadlineExceeded msg [])).Code = 504 ∧
    (ConvHTTP (NotFound msg [])).Code = 404 ∧
    (ConvHTTP (AlreadyExists msg [])).Code = 409 ∧
    (ConvHTTP (PermDenied msg [])).Code = 403 ∧
    (ConvHTTP (ResourceExhausted msg [])).Code = 429 ∧
    (ConvHTTP (FailedPreCondition msg [])).Code = 400 ∧
    (ConvHTTP (Aborted msg [])).Code = 409 ∧
    (ConvHTTP (OutOfRange msg [])).Code = 400 ∧
    (ConvHTTP (Unimplemented msg [])).Code = 501 ∧
    (ConvHTTP (InternalErr msg [])).Code = 500 ∧
    (ConvHTTP (Unavailable msg [])).Code = 503 ∧
    (ConvHTTP (DataLoss msg [])).Code = 500 ∧
    (ConvHTTP (Unauthenticated msg [])).Code = 401 :=
  ⟨rfl, rfl, rfl, rfl, rfl, rfl, rfl, rfl, rfl, rfl, rfl, rfl, rfl, rfl, rfl, rfl, rfl⟩

/-- C2 counterexample: translating the plain textual error "Generic" puts
the error text in `Desc` and leaves `Message` empty — the claim's assignment
(`Desc` empty, `Message` carrying the text) is the other way around. -/
theorem C2_counterexample :
    (ConvHTTP (GoError.plain "Generic")).Desc = "Generic" ∧
    (ConvHTTP (GoError.plain "Generic")).Message = "" ∧
    ¬ ((ConvHTTP (GoError.plain "Generic")).Desc = "" ∧
       (ConvHTTP (GoError.plain "Generic")).Message = "Generic") := by
  decide

/-- C2 (amended): translating any plain textual error yields numericCode
500, `Desc` = the error's own textual rendering, `Message` = "" and
`Details` = "". -/
theorem C2_translate_plain (m : String) :
    ConvHTTP (GoError.plain m) = ⟨500, m, "", ""⟩ :=
  rfl

/-- C3 counterexample: a status-carrying error with code 42 (absent from the
mapping table) translates to numericCode 0, not 500. -/
theorem C3_counterexample :
    (ConvHTTP (GoError.statusErr ⟨42, "boom", []⟩)).Code = 0 ∧
    (ConvHTTP (GoError.statusErr ⟨42, "boom", []⟩)).Code ≠ 500 := by
  decide

/-- C3 (amended): for every status-carrying error whose code is absent from
the mapping table, translation yields numericCode 0 (the Go zero value of a
missing map entry) and does not crash (the translation is total). -/
theorem C3_unmapped_code (s : Status) (h : httpMap s.code = Option.none) :
    (ConvHTTP (GoError.statusErr s)).Code = 0 := by
  show (httpMap s.code).getD 0 = 0
  rw [h]
  rfl

/-- Witness for C3: code 42 is unmapped and translates to numericCode 0. -/
theorem C3_unmapped_code_witness :
    httpMap 42 = Option.none ∧
    (ConvHTTP (GoError.statusErr ⟨42, "unmapped", []⟩)).Code = 0 :=
  ⟨rfl, C3_unmapped_code ⟨42, "unmapped", []⟩ rfl⟩

/-- C4 (code bug): `newErr` hands the caller's message to `status.Errorf`
as a format string with no operands, so a message containing a formatting
verb is mangled instead of appearing verbatim: constructing with message
"%d" and no details renders with `Message = %!d(MISSING)`, against the
constructors' own documentation ("the message passed") and the claim. -/
theorem C4_format_mangling :
    StringErr (InvalidArgs "%d" []) =
      "Code = InvalidArgument, Message = %!d(MISSING), Details = []" := by
  decide

/-- C5: for every constructor, message and detail sequence, if attaching the
details fails (some record cannot be marshalled) the constructor returns the
undecorated {kind, message} error with no details, surfacing no attachment
error (the return is the base error value), and construction always returns
a non-nil error value. -/
theorem C5_attach_failure (msg : String) (ds : List Detail) :
    ((ds.all (·.serializable) = false →
        InvalidArgs msg ds =
          GoError.statusErr ⟨codeInvalidArgument, sprintfNoArgs msg, []⟩) ∧
      InvalidArgs msg ds ≠ GoError.nil) ∧
    ((ds.all (·.serializable) = false →
        InternalErr msg ds =
          GoError.statusErr ⟨codeInternal, sprintfNoArgs msg, []⟩) ∧
      InternalErr msg ds ≠ GoError.nil) ∧
    ((ds.all (·.serializable) = false →
        Unknown msg ds =
          GoError.statusErr ⟨codeUnknown, sprintfNoArgs msg, []⟩) ∧
      Unknown msg ds ≠ GoError.nil) ∧
    ((ds.all (·.serializable) = false →
        NotFound msg ds =
          GoError.statusErr ⟨codeNotFound, sprintfNoArgs msg, []⟩) ∧
      NotFound msg ds ≠ GoError.nil) ∧
    ((ds.all (·.serializable) = false →
        PermDenied msg ds =
          GoError.statusErr ⟨codePermissionDenied, sprintfNoArgs msg, []⟩) ∧
      PermDenied msg ds ≠ GoError.nil) ∧
    ((ds.all (·.serializable) = false →
        Canceled msg ds =
          GoError.statusErr ⟨codeCanceled, sprintfNoArgs msg, []⟩) ∧
      Canceled msg ds ≠ GoError.nil) ∧
    ((ds.all (·.serializable) = false →
        DeadlineExceeded msg ds =
          GoError.statusErr ⟨codeDeadlineExceeded, sprintfNoArgs msg, []⟩) ∧
      DeadlineExceeded msg ds ≠ GoError.nil) ∧
    ((ds.all (·.serializable) = false →
        AlreadyExists msg ds =
          GoError.statusErr ⟨codeAlreadyExists, sprintfNoArgs msg, []⟩) ∧
      AlreadyExists msg ds ≠ GoError.nil) ∧
    ((ds.all (·.serializable) = false →
        ResourceExhausted msg ds =
          GoError.statusErr ⟨codeResourceExhausted, sprintfNoArgs msg, []⟩) ∧
      ResourceExhausted msg ds ≠ GoError.nil) ∧
    ((ds.all (·.serializable) = false →
        FailedPreCondition msg ds =
          GoError.statusErr ⟨codeFailedPrecondition, sprintfNoArgs msg, []⟩) ∧
      FailedPreCondition msg ds ≠ GoError.nil) ∧
    ((ds.all (·.serializable) = false →
        Aborted msg ds =
          GoError.statusErr ⟨codeAborted, sprintfNoArgs msg, []⟩) ∧
      Aborted msg ds ≠ GoError.nil) ∧
    ((ds.all (·.serializable) = false →
        OutOfRange msg ds =
          GoError.statusErr ⟨codeOutOfRange, sprintfNoArgs msg, []⟩) ∧
      OutOfRange msg ds ≠ GoError.nil) ∧
    ((ds.all (·.serializable) = false →
        Unimplemented msg ds =
          GoError.statusErr ⟨codeUnimplemented, sprintfNoArgs msg, []⟩) ∧
      Unimplemented msg ds ≠ GoError.nil) ∧
    ((ds.all (·.serializable) = false →
        DataLoss msg ds =
          GoError.statusErr ⟨codeDataLoss, sprintfNoArgs msg, []⟩) ∧
      DataLoss msg ds ≠ GoError.nil) ∧
    ((ds.all (·.serializable) = false →
        Unavailable msg ds =
          GoError.statusErr ⟨codeUnavailable, sprintfNoArgs msg, []⟩) ∧
      Unavailable msg ds ≠ GoError.nil) ∧
    ((ds.all (·.serializable) = false →
        Unauthenticated msg ds =
          GoError.statusErr ⟨codeUnauthenticated, sprintfNoArgs msg, []⟩) ∧
      Unauthenticated msg ds ≠ GoError.nil) :=
  ⟨newErr_attach codeInvalidArgument msg ds (by decide),
   newErr_attach codeInternal msg ds (by decide),
   newErr_attach codeUnknown msg ds (by decide),
   newErr_attach codeNotFound msg ds (by decide),
   newErr_attach codePermissionDenied msg ds (by decide),
   newErr_attach codeCanceled msg ds (by decide),
   newErr_attach codeDeadlineExceeded msg ds (by decide),
   newErr_attach codeAlreadyExists msg ds (by decide),
   newErr_attach codeResourceExhausted msg ds (by decide),
   newErr_attach codeFailedPrecondition msg ds (by decide),
   newErr_attach codeAborted msg ds (by decide),
   newErr_attach codeOutOfRange msg ds (by decide),
   newErr_attach codeUnimplemented msg ds (by decide),
   newErr_attach codeDataLoss msg ds (by decide),
   newErr_attach codeUnavailable msg ds (by decide),
   newErr_attach codeUnauthenticated msg ds (by decide)⟩

/-- Witness for C5: a single non-marshallable record fails attachment and
`InvalidArgs` falls back to the undecorated error. -/
theorem C5_attach_failure_witness :
    (([⟨"bad", false⟩] : List Detail).all (·.serializable) = false) ∧
    InvalidArgs "m" [⟨"bad", false⟩] =
      GoError.statusErr ⟨codeInvalidArgument, sprintfNoArgs "m", []⟩ :=
  ⟨rfl, (C5_attach_failure "m" [⟨"bad", false⟩]).1.1 rfl⟩

/-- C6: `IsValid` is true of every error produced by the 16 constructors,
with any details, and false of every plain textual error. -/
theorem C6_isValid (msg : String) (ds : List Detail) (m : String) :
    IsValid (InvalidArgs msg ds) = true ∧
    IsValid (InternalErr msg ds) = true ∧
    IsValid (Unknown msg ds) = true ∧
    IsValid (NotFound msg ds) = true ∧
    IsValid (PermDenied msg ds) = true ∧
    IsValid (Canceled msg ds) = true ∧
    IsValid (DeadlineExceeded msg ds) = true ∧
    IsValid (AlreadyExists msg ds) = true ∧
    IsValid (ResourceExhausted msg ds) = true ∧
    IsValid (FailedPreCondition msg ds) = true ∧
    IsValid (Aborted msg ds) = true ∧
    IsValid (OutOfRange msg ds) = true ∧
    IsValid (Unimplemented msg ds) = true ∧
    IsValid (DataLoss msg ds) = true ∧
    IsValid (Unavailable msg ds) = true ∧
    IsValid (Unauthenticated msg ds) = true ∧
    IsValid (GoError.plain m) = false :=
  ⟨newErr_isValid codeInvalidArgument msg ds (by decide),
   newErr_isValid codeInternal msg ds (by decide),
   newErr_isValid codeUnknown msg ds (by decide),
   newErr_isValid codeNotFound msg ds (by decide),
   newErr_isValid codePermissionDenied msg ds (by decide),
   newErr_isValid codeCanceled msg ds (by decide),
   newErr_isValid codeDeadlineExceeded msg ds (by decide),
   newErr_isValid codeAlreadyExists msg ds (by decide),
   newErr_isValid codeResourceExhausted msg ds (by decide),
   newErr_isValid codeFailedPrecondition msg ds (by decide),
   newErr_isValid codeAborted msg ds (by decide),
   newErr_isValid codeOutOfRange msg ds (by decide),
   newErr_isValid codeUnimplemented msg ds (by decide),
   newErr_isValid codeDataLoss msg ds (by decide),
   newErr_isValid codeUnavailable msg ds (by decide),
   newErr_isValid codeUnauthenticated msg ds (by decide),
   rfl⟩

/-- C7: for every outer text and every factory-produced error, the wrapped
error's rendering is exactly the outer text, a colon, and the inner error's
own rendering in parentheses, and the wrapped result is a plain textual
error (`IsValid` is false on it). -/
theorem C7_wrap (text msg : String) (ds : List Detail) :
    (errText (Wrap text (InvalidArgs msg ds)) =
        text ++ ":(" ++ errText (InvalidArgs msg ds) ++ ")" ∧
      IsValid (Wrap text (InvalidArgs msg ds)) = false) ∧
    (errText (Wrap text (InternalErr msg ds)) =
        text ++ ":(" ++ errText (InternalErr msg ds) ++ ")" ∧
      IsValid (Wrap text (InternalErr msg ds)) = false) ∧
    (errText (Wrap text (Unknown msg ds)) =
        text ++ ":(" ++ errText (Unknown msg ds) ++ ")" ∧
      IsValid (Wrap text (Unknown msg ds)) = false) ∧
    (errText (Wrap text (NotFound msg ds)) =
        text ++ ":(" ++ errText (NotFound msg ds) ++ ")" ∧
      IsValid (Wrap text (NotFound msg ds)) = false) ∧
    (errText (Wrap text (PermDenied msg ds)) =
        text ++ ":(" ++ errText (PermDenied msg ds) ++ ")" ∧
      IsValid (Wrap text (PermDenied msg ds)) = false) ∧
    (errText (Wrap text (Canceled msg ds)) =
        text ++ ":(" ++ errText (Canceled msg ds) ++ ")" ∧
      IsValid (Wrap text (Canceled msg ds)) = false) ∧
    (errText (Wrap text (DeadlineExceeded msg ds)) =
        text ++ ":(" ++ errText (DeadlineExceeded msg ds) ++ ")" ∧
      IsValid (Wrap text (DeadlineExceeded msg ds)) = false) ∧
    (errText (Wrap text (AlreadyExists msg ds)) =
        text ++ ":(" ++ errText (AlreadyExists msg ds) ++ ")" ∧
      IsValid (Wrap text (AlreadyExists msg ds)) = false) ∧
    (errText (Wrap text (ResourceExhausted msg ds)) =
        text ++ ":(" ++ errText (ResourceExhausted msg ds) ++ ")" ∧
      IsValid (Wrap text (ResourceExhausted msg ds)) = false) ∧
    (errText (Wrap text (FailedPreCondition msg ds)) =
        text ++ ":(" ++ errText (FailedPreCondition msg ds) ++ ")" ∧
      IsValid (Wrap text (FailedPreCondition msg ds)) = false) ∧
    (errText (Wrap text (Aborted msg ds)) =
        text ++ ":(" ++ errText (Aborted msg ds) ++ ")" ∧
      IsValid (Wrap text (Aborted msg ds)) = false) ∧
    (errText (Wrap text (OutOfRange msg ds)) =
        text ++ ":(" ++ errText (OutOfRange msg ds) ++ ")" ∧
      IsValid (Wrap text (OutOfRange msg ds)) = false) ∧
    (errText (Wrap text (Unimplemented msg ds)) =
        text ++ ":(" ++ errText (Unimplemented msg ds) ++ ")" ∧
      IsValid (Wrap text (Unimplemented msg ds)) = false) ∧
    (errText (Wrap text (DataLoss msg ds)) =
        text ++ ":(" ++ errText (DataLoss msg ds) ++ ")" ∧
      IsValid (Wrap text (DataLoss msg ds)) = false) ∧
    (errText (Wrap text (Unavailable msg ds)) =
        text ++ ":(" ++ errText (Unavailable msg ds) ++ ")" ∧
      IsValid (Wrap text (Unavailable msg ds)) = false) ∧
    (errText (Wrap text (Unauthenticated msg ds)) =
        text ++ ":(" ++ errText (Unauthenticated msg ds) ++ ")" ∧
      IsValid (Wrap text (Unauthenticated msg ds)) = false) :=
  ⟨wrap_newErr text codeInvalidArgument msg ds (by decide),
   wrap_newErr text codeInternal msg ds (by decide),
   wrap_newErr text codeUnknown msg ds (by decide),
   wrap_newErr text codeNotFound msg ds (by decide),
   wrap_newErr text codePermissionDenied msg ds (by decide),
   wrap_newErr text codeCanceled msg ds (by decide),
   wrap_newErr text codeDeadlineExceeded msg ds (by decide),
   wrap_newErr text codeAlreadyExists msg ds (by decide),
   wrap_newErr text codeResourceExhausted msg ds (by decide),
   wrap_newErr text codeFailedPrecondition msg ds (by decide),
   wrap_newErr text codeAborted msg ds (by decide),
   wrap_newErr text codeOutOfRange msg ds (by decide),
   wrap_newErr text codeUnimplemented msg ds (by decide),
   wrap_newErr text codeDataLoss msg ds (by decide),
   wrap_newErr text codeUnavailable msg ds (by decide),
   wrap_newErr text codeUnauthenticated msg ds (by decide)⟩

/-- C8: `Code` is a total function (hence never panics); it returns the
bound kind for every error produced by one of the 16 constructors, and the
UNKNOWN kind (2) for every plain textual error. -/
theorem C8_extract_kind (msg : String) (ds : List Detail) (m : String) :
    Code (InvalidArgs msg ds) = codeInvalidArgument ∧
    Code (InternalErr msg ds) = codeInternal ∧
    Code (Unknown msg ds) = codeUnknown ∧
    Code (NotFound msg ds) = codeNotFound ∧
    Code (PermDenied msg ds) = codePermissionDenied ∧
    Code (Canceled msg ds) = codeCanceled ∧
    Code (DeadlineExceeded msg ds) = codeDeadlineExceeded ∧
    Code (AlreadyExists msg ds) = codeAlreadyExists ∧
    Code (ResourceExhausted msg ds) = codeResourceExhausted ∧
    Code (FailedPreCondition msg ds) = codeFailedPrecondition ∧
    Code (Aborted msg ds) = codeAborted ∧
    Code (OutOfRange msg ds) = codeOutOfRange ∧
    Code (Unimplemented msg ds) = codeUnimplemented ∧
    Code (DataLoss msg ds) = codeDataLoss ∧
    Code (Unavailable msg ds) = codeUnavailable ∧
    Code (Unauthenticated msg ds) = codeUnauthenticated ∧
    Code (GoError.plain m) = codeUnknown :=
  ⟨newErr_code codeInvalidArgument msg ds (by decide),
   newErr_code codeInternal msg ds (by decide),
   newErr_code codeUnknown msg ds (by decide),
   newErr_code codeNotFound msg ds (by decide),
   newErr_code codePermissionDenied msg ds (by decide),
   newErr_code codeCanceled msg ds (by decide),
   newErr_code codeDeadlineExceeded msg ds (by decide),
   newErr_code codeAlreadyExists msg ds (by decide),
   newErr_code codeResourceExhausted msg ds (by decide),
   newErr_code codeFailedPrecondition msg ds (by decide),
   newErr_code codeAborted msg ds (by decide),
   newErr_code codeOutOfRange msg ds (by decide),
   newErr_code codeUnimplemented msg ds (by decide),
   newErr_code codeDataLoss msg ds (by decide),
   newErr_code codeUnavailable msg ds (by decide),
   newErr_code codeUnauthenticated msg ds (by decide),
   rfl⟩

/-- C9: for every constructor and message, constructing with detail records
that all attach and then translating yields the records' renderings, in
attachment order, space-separated inside brackets; with zero records the
serialized details are the literal empty-sequence marker `[]` (the last
conjunct, and also the `ds = []` instance of each of the first 16). -/
theorem C9_details (msg : String) (ds : List Detail)
    (hd : ds.all (·.serializable) = true) :
    (ConvHTTP (InvalidArgs msg ds)).Details =
      "[" ++ String.intercalate " " (ds.map (·.render)) ++ "]" ∧
    (ConvHTTP (InternalErr msg ds)).Details =
      "[" ++ String.intercalate " " (ds.map (·.render)) ++ "]" ∧
    (ConvHTTP (Unknown msg ds)).Details =
      "[" ++ String.intercalate " " (ds.map (·.render)) ++ "]" ∧
    (ConvHTTP (NotFound msg ds)).Details =
      "[" ++ String.intercalate " " (ds.map (·.render)) ++ "]" ∧
    (ConvHTTP (PermDenied msg ds)).Details =
      "[" ++ String.intercalate " " (ds.map (·.render)) ++ "]" ∧
    (ConvHTTP (Canceled msg ds)).Details =
      "[" ++ String.intercalate " " (ds.map (·.render)) ++ "]" ∧
    (ConvHTTP (DeadlineExceeded msg ds)).Details =
      "[" ++ String.intercalate " " (ds.map (·.render)) ++ "]" ∧
    (ConvHTTP (AlreadyExists msg ds)).Details =
      "[" ++ String.intercalate " " (ds.map (·.render)) ++ "]" ∧
    (ConvHTTP (ResourceExhausted msg ds)).Details =
      "[" ++ String.intercalate " " (ds.map (·.render)) ++ "]" ∧
    (ConvHTTP (FailedPreCondition msg ds)).Details =
      "[" ++ String.intercalate " " (ds.map (·.render)) ++ "]" ∧
    (ConvHTTP (Aborted msg ds)).Details =
      "[" ++ String.intercalate " " (ds.map (·.render)) ++ "]" ∧
    (ConvHTTP (OutOfRange msg ds)).Details =
      "[" ++ String.intercalate " " (ds.map (·.render)) ++ "]" ∧
    (ConvHTTP (Unimplemented msg ds)).Details =
      "[" ++ String.intercalate " " (ds.map (·.render)) ++ "]" ∧
    (ConvHTTP (DataLoss msg ds)).Details =
      "[" ++ String.intercalate " " (ds.map (·.render)) ++ "]" ∧
    (ConvHTTP (Unavailable msg ds)).Details =
      "[" ++ String.intercalate " " (ds.map (·.render)) ++ "]" ∧
    (ConvHTTP (Unauthenticated msg ds)).Details =
      "[" ++ String.intercalate " " (ds.map (·.render)) ++ "]" ∧
    (ConvHTTP (InvalidArgs msg [])).Details = "[]" :=
  ⟨newErr_details codeInvalidArgument msg ds (by decide) hd,
   newErr_details codeInternal msg ds (by decide) hd,
   newErr_details codeUnknown msg ds (by decide) hd,
   newErr_details codeNotFound msg ds (by decide) hd,
   newErr_details codePermissionDenied msg ds (by decide) hd,
   newErr_details codeCanceled msg ds (by decide) hd,
   newErr_details codeDeadlineExceeded msg ds (by decide) hd,
   newErr_details codeAlreadyExists msg ds (by decide) hd,
   newErr_details codeResourceExhausted msg ds (by decide) hd,
   newErr_details codeFailedPrecondition msg ds (by decide) hd,
   newErr_details codeAborted msg ds (by decide) hd,
   newErr_details codeOutOfRange msg ds (by decide) hd,
   newErr_details codeUnimplemented msg ds (by decide) hd,
   newErr_details codeDataLoss msg ds (by decide) hd,
   newErr_details codeUnavailable msg ds (by decide) hd,
   newErr_details codeUnauthenticated msg ds (by decide) hd,
   rfl⟩

/-- Witness for C9: two well-formed records translate to their renderings in
attachment order. -/
theorem C9_details_witness :
    (([⟨"d1", true⟩, ⟨"d2", true⟩] : List Detail).all (·.serializable) = true) ∧
    (ConvHTTP (InvalidArgs "m" [⟨"d1", true⟩, ⟨"d2", true⟩])).Details = "[d1 d2]" :=
  ⟨rfl, ((C9_details "m" [⟨"d1", true⟩, ⟨"d2", true⟩] rfl).1).trans (by decide)⟩

/-- C10: the introspection operations treat the nil error as a valid status
error: `IsValid` of nil is true and `Code` of nil is the OK kind, which is
distinct from the UNKNOWN kind. -/
theorem C10_nil_behavior :
    IsValid GoError.nil = true ∧
    Code GoError.nil = codeOK ∧
    codeOK ≠ codeUnknown := by
  decide

end Svcerr
